import Mathlib

/-!
RealtimeLog: merge, classify, filter and colour

A shallow embedding of `src/components/pages/realtime/RealtimeLog.js`.

* JavaScript values that the component inspects are `JSVal`; a field that a
  record does not carry reads as `JSVal.undefined`, as a destructured missing
  property does.
* `if (x)`, `x || y` and `!x` go through `truthy`, `===` is equality of `JSVal`.
* `createdAt` is an integer timestamp: the ordering results are about
  snapshots whose timestamps are mutually comparable numbers.
* The React memo hooks are pure functions of their dependency lists, so
  `logs` and `uuids` are functions of `(data, filter)` and of `data`.
-/

namespace RealtimeLog

/-! ## JavaScript values -/

/-- The JavaScript values a record field or the filter state can hold. -/
inductive JSVal where
  | undefined
  | null
  | bool (b : Bool)
  | num (n : Int)
  | str (s : String)
  deriving DecidableEq, Repr

/-- JavaScript `ToBoolean`: `undefined`, `null`, `false`, `0` and `""` are falsy. -/
def truthy : JSVal → Bool
  | .undefined => false
  | .null => false
  | .bool b => b
  | .num n => n != 0
  | .str s => s != ""

/-- Binary logarithm by repeated halving; `fuel` bounds the number of steps. -/
def log2Fuel : Nat → Nat → Nat
  | 0, _ => 0
  | fuel + 1, x => if x < 2 then 0 else log2Fuel fuel (x / 2) + 1

/-- A decimal numeral without its trailing zeros; `fuel` bounds the number of steps. -/
def stripZeros : Nat → Nat → Nat
  | 0, v => v
  | fuel + 1, v => if v % 10 = 0 ∧ v ≠ 0 then stripZeros fuel (v / 10) else v

/-- The decimal with `k` significant digits that reads back as the Number `x`,
if there is one: of the two `k`-digit neighbours of `x` the one within half a
unit in the last place of the 53-bit significand (the boundary counts when the
significand is even), and the closer one when both are. -/
def roundTrips (x k : Nat) : List Nat :=
  let e := log2Fuel 1100 x
  let ulp := 2 ^ (e - 52)
  let even := (x / ulp) % 2 = 0
  let below := if x = 2 ^ e then ulp / 4 else ulp / 2
  let above := ulp / 2
  let p := 10 ^ ((Nat.toDigits 10 x).length - k)
  let v1 := x / p * p
  let v2 := v1 + p
  let ok1 := if even then x - v1 ≤ below else x - v1 < below
  let ok2 := if even then v2 - x ≤ above else v2 - x < above
  if ok1 ∧ ok2 then (if x - v1 ≤ v2 - x then [v1] else [v2])
  else if ok1 then [v1] else if ok2 then [v2] else []

/-- The shortest decimal that reads back as the Number `x`, searched from `k`
significant digits upwards. -/
def shortestDecimal (x : Nat) : Nat → Nat → Nat
  | 0, _ => x
  | fuel + 1, k =>
    match roundTrips x k with
    | v :: _ => v
    | [] => shortestDecimal x fuel (k + 1)

/-- The exponent form of `Number::toString`: the digits of the shortest
decimal, a point after the first digit, then `e+` and the decimal exponent. -/
def exponentForm (x : Nat) : String :=
  let v := shortestDecimal x 17 1
  let ex := Nat.repr ((Nat.toDigits 10 v).length - 1)
  match Nat.toDigits 10 (stripZeros 400 v) with
  | [] => ""
  | [d] => String.singleton d ++ "e+" ++ ex
  | d :: rest => String.singleton d ++ "." ++ String.mk rest ++ "e+" ++ ex

/-- The operation `Number::toString` on an integer Number: all the digits below
`1e21` in magnitude, the exponent form from there on. An integer stands for
the Number of that value; integers that no Number has are not inputs. -/
def numberToString (n : Int) : String :=
  (if n < 0 then "-" else "") ++
    (if n.natAbs < 10 ^ 21 then Nat.repr n.natAbs else exponentForm n.natAbs)

/-- JavaScript `ToString`, as used by a template literal and by a property key. -/
def toStr : JSVal → String
  | .undefined => "undefined"
  | .null => "null"
  | .bool true => "true"
  | .bool false => "false"
  | .num n => numberToString n
  | .str s => s

/-- The expression `a || b`. -/
def jsOr (a b : JSVal) : JSVal := if truthy a then a else b

/-! ## Records and snapshots -/

/-- One raw record of the snapshot, with the fields the component destructures. -/
structure Record where
  pageviewId : JSVal := .undefined
  sessionId : JSVal := .undefined
  eventId : JSVal := .undefined
  createdAt : Int
  eventName : JSVal := .undefined
  url : JSVal := .undefined
  browser : JSVal := .undefined
  os : JSVal := .undefined
  country : JSVal := .undefined
  device : JSVal := .undefined
  websiteId : JSVal := .undefined
  sessionUuid : JSVal := .undefined
  deriving DecidableEq, Repr

/-- The `data` prop when it is present: `{ pageviews, sessions, events }`. -/
structure Snapshot where
  pageviews : List Record
  sessions : List Record
  events : List Record
  deriving DecidableEq, Repr

/-! ## Type constants (lines 18-21) -/

def TYPE_ALL : JSVal := .str "type-all"
def TYPE_PAGEVIEW : JSVal := .str "type-pageview"
def TYPE_SESSION : JSVal := .str "type-session"
def TYPE_EVENT : JSVal := .str "type-event"

/-! ## Classifier (lines 78-89) -/

/-- The function `getType`: first truthy of `eventId`, `pageviewId`, `sessionId`. -/
def getType (row : Record) : JSVal :=
  if truthy row.eventId then TYPE_EVENT
  else if truthy row.pageviewId then TYPE_PAGEVIEW
  else if truthy row.sessionId then TYPE_SESSION
  else .null

/-! ## Sorting (line 41) -/

/-- The unary key that `firstBy('createdAt', …)` builds from a property name,
`v => !!v[prop] ? v[prop] : ""`: a falsy timestamp is replaced by the empty string. -/
inductive SortKey where
  | num (n : Int)
  | empty
  deriving DecidableEq, Repr

/-- The key of a record under `firstBy('createdAt', …)`. -/
def sortKey (row : Record) : SortKey :=
  if truthy (.num row.createdAt) then .num row.createdAt else .empty

/-- JavaScript `ToNumber` on a key: the empty string converts to `0`. -/
def SortKey.toNumber : SortKey → Int
  | .num n => n
  | .empty => 0

/-- The comparison `a < b` on two keys: two strings compare as strings (the
empty string is not below itself), every other pair compares numerically. -/
def SortKey.lt : SortKey → SortKey → Bool
  | .empty, .empty => false
  | a, b => decide (a.toNumber < b.toNumber)

/-- The default comparator of thenby, `(a, b) => a < b ? -1 : a > b ? 1 : 0`. -/
def defaultCmp (a b : SortKey) : Int :=
  if a.lt b then -1 else if b.lt a then 1 else 0

/-- The comparator `firstBy('createdAt', -1)`: the default comparator on the
keys, negated because the direction is `-1`. -/
def firstByCreatedAtDesc (v1 v2 : Record) : Int :=
  - defaultCmp (sortKey v1) (sortKey v2)

/-- Insertion of `a` in front of the first element it does not have to follow. -/
def insertSorted {α : Type} (cmp : α → α → Int) (a : α) : List α → List α
  | [] => [a]
  | b :: l => if cmp a b ≤ 0 then a :: b :: l else b :: insertSorted cmp a l

/-- The method `Array.prototype.sort(cmp)`, which ECMAScript requires to be a
stable sort. It is embedded as a stable insertion sort: `a` is placed before
`b` when `cmp a b ≤ 0`, and elements that compare equal keep their order. -/
def jsSort {α : Type} (cmp : α → α → Int) : List α → List α
  | [] => []
  | a :: l => insertSorted cmp a (jsSort cmp l)

/-! ## The `logs` memo (lines 35-46) -/

/-- The array `[...pageviews, ...sessions, ...events]`. -/
def concatenated (d : Snapshot) : List Record :=
  d.pageviews ++ d.sessions ++ d.events

/-- The local `logs` of line 41: the concatenation sorted by `createdAt`, newest first. -/
def merged (d : Snapshot) : List Record :=
  jsSort firstByCreatedAtDesc (concatenated d)

/-- The memo `logs`: `[]` without data, otherwise the merged array, filtered
by `getType(row) === filter` whenever `filter` is truthy. -/
def logs (data : Option Snapshot) (filter : JSVal) : List Record :=
  match data with
  | none => []
  | some d =>
    if truthy filter then (merged d).filter (fun row => decide (getType row = filter))
    else merged d

/-- The snapshot of the specification's scenario. -/
def scenario : Snapshot where
  pageviews := [{ pageviewId := .num 1, createdAt := 100, url := .str "/a" }]
  sessions := [{ sessionId := .num 9, sessionUuid := .str "u9", createdAt := 50,
                 country := .str "US", browser := .str "chrome", os := .str "Win10",
                 device := .str "desktop" }]
  events := [{ eventId := .num 5, createdAt := 150, eventName := .str "signup" }]

/-! ## The `uuids` memo (lines 48-57) -/

/-- The string-named members of `Object.prototype`, which every object created
by `{}` inherits: the methods, and the accessor `__proto__`. -/
def objectPrototypeMembers : List String :=
  ["constructor", "hasOwnProperty", "isPrototypeOf", "propertyIsEnumerable",
   "toLocaleString", "toString", "valueOf", "__proto__", "__defineGetter__",
   "__defineSetter__", "__lookupGetter__", "__lookupSetter__"]

/-- What a property read returns: a stored value, or the member of that name
found on the prototype chain (a function, or for `__proto__` the prototype). -/
inductive Property where
  | value (v : JSVal)
  | inherited (name : String)
  deriving DecidableEq, Repr

/-- JavaScript `ToBoolean` on the result of a read: functions and objects are truthy. -/
def propTruthy : Property → Bool
  | .value v => truthy v
  | .inherited _ => true

/-- An object created by `{}`: its own properties, keyed by strings, and
whether its prototype is still `Object.prototype`. -/
structure Obj where
  own : List (String × JSVal)
  hasPrototype : Bool
  deriving DecidableEq, Repr

/-- The literal `{}`. -/
def emptyObject : Obj := { own := [], hasPrototype := true }

/-- The assignment `obj[key] = value`. The key is converted with `ToString`.
The name `__proto__`, while it is inherited, reaches the setter of
`Object.prototype`: `null` removes the prototype and every other primitive is
ignored. Any other assignment creates or overwrites an own property. -/
def setProp (obj : Obj) (key value : JSVal) : Obj :=
  if toStr key = "__proto__" ∧ obj.hasPrototype = true ∧
      (obj.own.lookup "__proto__").isNone = true then
    if value = .null then { obj with hasPrototype := false } else obj
  else
    { obj with own := (toStr key, value) :: obj.own.filter (fun p => p.1 != toStr key) }

/-- The read `obj[key]`: the own property if there is one, otherwise the
member of `Object.prototype` of that name while the object has its prototype,
otherwise `undefined`. -/
def getProp (obj : Obj) (key : JSVal) : Property :=
  match obj.own.lookup (toStr key) with
  | some v => .value v
  | none =>
    if obj.hasPrototype && objectPrototypeMembers.contains (toStr key) then
      .inherited (toStr key)
    else .value .undefined

/-- The value of the memo `uuids`: the empty array `[]` or an object. -/
inductive Table where
  | emptyArray
  | object (obj : Obj)
  deriving DecidableEq, Repr

/-- The memo `uuids`: `[]` without data, otherwise the left-to-right `reduce`
of `data.sessions` that stores `obj[sessionId] = sessionUuid`, started on `{}`. -/
def uuids (data : Option Snapshot) : Table :=
  match data with
  | none => .emptyArray
  | some d =>
    .object (d.sessions.foldl (fun obj s => setProp obj s.sessionId s.sessionUuid) emptyObject)

/-- The read `uuids[key]`. The empty array has the own property `length`, equal
to `0`, and inherits from `Array.prototype` and `Object.prototype`; which names
`Array.prototype` provides depends on the edition of the engine and is the
parameter `arrayMember`. -/
def readTable (arrayMember : String → Bool) (t : Table) (key : JSVal) : Property :=
  match t with
  | .emptyArray =>
    if toStr key = "length" then .value (.num 0)
    else if arrayMember (toStr key) || objectPrototypeMembers.contains (toStr key) then
      .inherited (toStr key)
    else .value .undefined
  | .object obj => getProp obj key

/-! ## Colour (lines 141-145) -/

/-- The seed handed to `stringToColor`: ``uuids[sessionId] || `${sessionId}}` ``.
The template literal ends in a literal closing brace. -/
def colorSeed (arrayMember : String → Bool) (data : Option Snapshot) (row : Record) : Property :=
  if propTruthy (readTable arrayMember (uuids data) row.sessionId) then
    readTable arrayMember (uuids data) row.sessionId
  else .value (.str (toStr row.sessionId ++ "\x7d"))

/-- The function `getColor`; `stringToColor` (from `lib/format`) is a parameter. -/
def getColor {γ : Type} (stringToColor : Property → γ) (arrayMember : String → Bool)
    (data : Option Snapshot) (row : Record) : γ :=
  stringToColor (colorSeed arrayMember data row)

/-- Following the specification's words: the identifier of a session is the
`sessionUuid` of the latest session of the collection stored under the same
`sessionId` (as a property key), and is absent (`undefined`) when there is none. -/
def latestSessionUuid (sessions : List Record) (sessionId : JSVal) : JSVal :=
  match sessions.reverse.find? (fun s => toStr s.sessionId == toStr sessionId) with
  | some s => s.sessionUuid
  | none => .undefined

/-! ## Detail (lines 95-135) -/

/-- The collaborators `getDetail` calls: `safeDecodeURI`, the `countryNames`
table, `formatMessage(labels.unknown)`, the `BROWSERS` table and
`formatMessage(getDeviceMessage(device))`. -/
structure Collaborators where
  safeDecodeURI : JSVal → JSVal
  countryNames : JSVal → JSVal
  unknownLabel : JSVal
  browsers : JSVal → JSVal
  deviceMessage : JSVal → JSVal

/-- What `getDetail` returns: the `div` with the event name, the link with its
`href` and text, or the visitor message with its four interpolated values. -/
inductive Detail where
  | eventName (name : JSVal)
  | pageLink (href : String) (text : JSVal)
  | visitor (country browser os device : JSVal)
  deriving DecidableEq, Repr

/-- The function `getDetail`; `none` is the `undefined` of falling off the end. -/
def getDetail (c : Collaborators) (websiteDomain : JSVal) (row : Record) : Option Detail :=
  if truthy row.eventName then
    some (.eventName row.eventName)
  else if truthy row.pageviewId then
    some (.pageLink ("//" ++ toStr websiteDomain ++ toStr row.url) (c.safeDecodeURI row.url))
  else if truthy row.sessionId then
    some (.visitor (jsOr (c.countryNames row.country) c.unknownLabel) (c.browsers row.browser)
      row.os (c.deviceMessage row.device))
  else none

/-- Collaborators that return their argument, to evaluate `getDetail` on examples. -/
def echoCollaborators : Collaborators where
  safeDecodeURI := id
  countryNames := id
  unknownLabel := .str "Unknown"
  browsers := id
  deviceMessage := id

/-! ## The body of the panel (lines 169-176) -/

/-- What the body can contain. -/
inductive BodyElem where
  | noData
  | fixedSizeList (height itemCount itemSize : Nat)
  deriving DecidableEq, Repr

/-- The children of the body `div`: `cond && element` contributes the element
when the condition holds and nothing otherwise. -/
def renderBody (logs : List Record) : List BodyElem :=
  (if logs.length = 0 then [BodyElem.noData] else []) ++
  (if logs.length > 0 then [BodyElem.fixedSizeList 400 logs.length 40] else [])

/-- The number of calls of `Row`. Only a rendered `FixedSizeList` calls `Row`;
how many rows it asks for is decided by the list component, here `window`. -/
def rowCalls (window : Nat → Nat → Nat → Nat) : List BodyElem → Nat
  | [] => 0
  | .noData :: rest => rowCalls window rest
  | .fixedSizeList h n r :: rest => window h n r + rowCalls window rest

/-! ## Records used in examples -/

/-- The session record of the scenario. -/
def sessionNine : Record :=
  { sessionId := .num 9, sessionUuid := .str "u9", createdAt := 50, country := .str "US",
    browser := .str "chrome", os := .str "Win10", device := .str "desktop" }

/-- A row whose `sessionId` is the string `constructor`. -/
def constructorRow : Record := { sessionId := .str "constructor", createdAt := 0 }

/-- A session whose `sessionId` is the string `__proto__`. -/
def protoSession : Record :=
  { sessionId := .str "__proto__", sessionUuid := .str "u1", createdAt := 0 }

/-- A snapshot whose only session is `protoSession`. -/
def protoSnapshot : Snapshot := { pageviews := [], sessions := [protoSession], events := [] }

/-- A snapshot with three sessions, the third stored under the key of the first. -/
def threeSessions : Snapshot where
  pageviews := []
  sessions := [{ sessionId := .num 1, sessionUuid := .str "a", createdAt := 0 },
               { sessionId := .num 2, sessionUuid := .str "b", createdAt := 0 },
               { sessionId := .str "1", sessionUuid := .str "c", createdAt := 0 }]
  events := []

/-- The event record of the scenario. -/
def signupEvent : Record := { eventId := .num 5, createdAt := 150, eventName := .str "signup" }

/-- A record whose `eventId` is the number `0`. -/
def zeroEventId : Record := { eventId := .num 0, createdAt := 0 }

/-- A record whose `eventId` is `0` and whose `pageviewId` is `7`. -/
def zeroEventIdWithPageview : Record := { eventId := .num 0, pageviewId := .num 7, createdAt := 0 }

/-- An event record with a session but without a name. -/
def unnamedEvent : Record := { eventId := .num 5, sessionId := .num 9, createdAt := 0 }

/-- A record with a name and no identifier. -/
def namedOnly : Record := { eventName := .str "signup", createdAt := 0 }

/-- A pageview record that also has a name. -/
def namedPageview : Record :=
  { pageviewId := .num 1, eventName := .str "signup", url := .str "/a", createdAt := 0 }

/-! ## Sorting lemmas -/

section Sorting

variable {α : Type} (cmp : α → α → Int) (key : α → Int)

theorem insertSorted_perm (a : α) (l : List α) : (insertSorted cmp a l).Perm (a :: l) := by
  induction l with
  | nil => exact List.Perm.refl _
  | cons b l ih =>
    unfold insertSorted
    split_ifs
    · exact List.Perm.refl _
    · exact (ih.cons b).trans (List.Perm.swap a b l)

theorem jsSort_perm (l : List α) : (jsSort cmp l).Perm l := by
  induction l with
  | nil => exact List.Perm.refl _
  | cons a l ih =>
    unfold jsSort
    exact (insertSorted_perm cmp a _).trans (ih.cons a)

theorem insertSorted_pairwise (hc : ∀ a b, cmp a b ≤ 0 ↔ key b ≤ key a) (a : α) (l : List α)
    (hl : l.Pairwise (fun x y => key y ≤ key x)) :
    (insertSorted cmp a l).Pairwise (fun x y => key y ≤ key x) := by
  induction l with
  | nil => simp [insertSorted]
  | cons b l ih =>
    rw [List.pairwise_cons] at hl
    unfold insertSorted
    split_ifs with h
    · rw [hc] at h
      refine List.Pairwise.cons ?_ (List.Pairwise.cons hl.1 hl.2)
      intro x hx
      rcases List.mem_cons.1 hx with rfl | hx
      · exact h
      · exact le_trans (hl.1 x hx) h
    · rw [hc] at h
      refine List.Pairwise.cons ?_ (ih hl.2)
      intro x hx
      rcases List.mem_cons.1 ((insertSorted_perm cmp a l).mem_iff.1 hx) with rfl | hx
      · omega
      · exact hl.1 x hx

theorem jsSort_pairwise (hc : ∀ a b, cmp a b ≤ 0 ↔ key b ≤ key a) (l : List α) :
    (jsSort cmp l).Pairwise (fun x y => key y ≤ key x) := by
  induction l with
  | nil => simp [jsSort]
  | cons a l ih =>
    unfold jsSort
    exact insertSorted_pairwise cmp key hc a _ ih

theorem insertSorted_filter_key (hc : ∀ a b, cmp a b ≤ 0 ↔ key b ≤ key a) (k : Int) (a : α)
    (l : List α) :
    (insertSorted cmp a l).filter (fun x => decide (key x = k)) =
      (a :: l).filter (fun x => decide (key x = k)) := by
  induction l with
  | nil => rfl
  | cons b l ih =>
    unfold insertSorted
    split_ifs with h
    · rfl
    · rw [hc] at h
      rw [List.filter_cons, ih]
      by_cases ha : key a = k
      · have hb : ¬ key b = k := by omega
        simp [List.filter_cons, ha, hb]
      · simp [List.filter_cons, ha]

theorem jsSort_filter_key (hc : ∀ a b, cmp a b ≤ 0 ↔ key b ≤ key a) (k : Int) (l : List α) :
    (jsSort cmp l).filter (fun x => decide (key x = k)) =
      l.filter (fun x => decide (key x = k)) := by
  induction l with
  | nil => rfl
  | cons a l ih =>
    unfold jsSort
    rw [insertSorted_filter_key cmp key hc, List.filter_cons, List.filter_cons, ih]

theorem sorted_stable_unique (l₁ l₂ : List α)
    (h₁ : l₁.Pairwise (fun x y => key y ≤ key x))
    (h₂ : l₂.Pairwise (fun x y => key y ≤ key x))
    (h : ∀ k, l₁.filter (fun x => decide (key x = k)) = l₂.filter (fun x => decide (key x = k))) :
    l₁ = l₂ := by
  induction l₁ generalizing l₂ with
  | nil =>
    cases l₂ with
    | nil => rfl
    | cons b t₂ =>
      have := h (key b)
      simp [List.filter_cons] at this
  | cons a t₁ ih =>
    cases l₂ with
    | nil =>
      have := h (key a)
      simp [List.filter_cons] at this
    | cons b t₂ =>
      rw [List.pairwise_cons] at h₁ h₂
      have hba : key b ≤ key a := by
        have hb : b ∈ (a :: t₁).filter (fun x => decide (key x = key b)) := by
          rw [h (key b)]; simp [List.filter_cons]
        rcases List.mem_cons.1 (List.mem_filter.1 hb).1 with rfl | hm
        · exact le_refl _
        · exact h₁.1 b hm
      have hab : key a ≤ key b := by
        have ha : a ∈ (b :: t₂).filter (fun x => decide (key x = key a)) := by
          rw [← h (key a)]; simp [List.filter_cons]
        rcases List.mem_cons.1 (List.mem_filter.1 ha).1 with rfl | hm
        · exact le_refl _
        · exact h₂.1 a hm
      have hk : key b = key a := le_antisymm hba hab
      have hhead := h (key a)
      simp only [List.filter_cons, hk, decide_True, if_true] at hhead
      have hab' : a = b := (List.cons.inj hhead).1
      subst hab'
      congr 1
      apply ih t₂ h₁.2 h₂.2
      intro k
      have hk' := h k
      by_cases hak : key a = k
      · simp only [List.filter_cons, hak, decide_True, if_true] at hk'
        exact (List.cons.inj hk').2
      · simpa [List.filter_cons, hak] using hk'

end Sorting

/-- The comparator puts `a` no later than `b` exactly when `a` is at least as recent. -/
theorem firstByCreatedAtDesc_le_zero (a b : Record) :
    firstByCreatedAtDesc a b ≤ 0 ↔ b.createdAt ≤ a.createdAt := by
  unfold firstByCreatedAtDesc defaultCmp sortKey
  by_cases ha : a.createdAt = 0 <;> by_cases hb : b.createdAt = 0 <;>
    simp [truthy, ha, hb, SortKey.lt, SortKey.toNumber] <;> split_ifs <;> omega

/-! ## Object lemmas -/

theorem lookup_filter_ne (o : List (String × JSVal)) (k k' : String) (h : k' ≠ k) :
    (o.filter (fun p => p.1 != k)).lookup k' = o.lookup k' := by
  induction o with
  | nil => rfl
  | cons p o ih =>
    obtain ⟨a, b⟩ := p
    by_cases ha : a = k
    · subst ha
      have hb : (k' == a) = false := beq_eq_false_iff_ne.2 h
      simp [List.filter_cons, List.lookup_cons, ih, hb]
    · by_cases hk : k' = a
      · simp [List.filter_cons, ha, List.lookup_cons, hk]
      · have hb : (k' == a) = false := beq_eq_false_iff_ne.2 hk
        simp [List.filter_cons, ha, List.lookup_cons, ih, hb]

/-- A name that `Object.prototype` does not provide reads as the own property. -/
theorem getProp_of_not_member (o : Obj) (k : JSVal)
    (h : objectPrototypeMembers.contains (toStr k) = false) :
    getProp o k = .value ((o.own.lookup (toStr k)).getD .undefined) := by
  unfold getProp
  cases o.own.lookup (toStr k) with
  | none =>
    rw [h, Bool.and_false]
    rfl
  | some v => rfl

/-- An assignment changes the own property under its key and no other one,
among the names that `Object.prototype` does not provide. -/
theorem lookup_setProp (o : Obj) (k v k' : JSVal)
    (h : objectPrototypeMembers.contains (toStr k') = false) :
    ((setProp o k v).own.lookup (toStr k')).getD .undefined =
      if toStr k' = toStr k then v else (o.own.lookup (toStr k')).getD .undefined := by
  have hne : toStr k' ≠ "__proto__" := by
    intro e
    rw [e] at h
    exact absurd h (by decide)
  unfold setProp
  by_cases hc : toStr k = "__proto__" ∧ o.hasPrototype = true ∧
      (o.own.lookup "__proto__").isNone = true
  · have hk : toStr k' ≠ toStr k := fun e => hne (e.trans hc.1)
    rw [if_pos hc, if_neg hk]
    by_cases hv : v = .null
    · rw [if_pos hv]
    · rw [if_neg hv]
  · rw [if_neg hc]
    by_cases hk : toStr k' = toStr k
    · rw [if_pos hk]
      simp [List.lookup_cons, hk]
    · rw [if_neg hk]
      have hb : (toStr k' == toStr k) = false := beq_eq_false_iff_ne.2 hk
      simp [List.lookup_cons, hb, lookup_filter_ne _ _ _ hk]

/-- The table built by the fold holds, under every key that `Object.prototype`
does not provide, the `sessionUuid` of the latest session stored under that key. -/
theorem getProp_uuids (sessions : List Record) (key : JSVal)
    (h : objectPrototypeMembers.contains (toStr key) = false) :
    getProp (sessions.foldl (fun obj s => setProp obj s.sessionId s.sessionUuid) emptyObject)
        key = .value (latestSessionUuid sessions key) := by
  rw [getProp_of_not_member _ _ h]
  congr 1
  induction sessions using List.reverseRecOn with
  | nil => rfl
  | append_singleton l s ih =>
    rw [List.foldl_append]
    simp only [List.foldl_cons, List.foldl_nil]
    rw [lookup_setProp _ _ _ _ h, ih]
    unfold latestSessionUuid
    rw [List.reverse_append]
    by_cases hk : toStr s.sessionId = toStr key
    · simp [List.find?_cons, hk]
    · have hk' : ¬ toStr key = toStr s.sessionId := fun e => hk e.symm
      simp [List.find?_cons, hk, hk']

/-! ## Classifier lemmas -/

theorem getType_ne_TYPE_ALL (row : Record) : getType row ≠ TYPE_ALL := by
  unfold getType
  split_ifs <;> decide

theorem getType_eq_null_iff (row : Record) :
    getType row = .null ↔
      truthy row.eventId = false ∧ truthy row.pageviewId = false ∧ truthy row.sessionId = false := by
  unfold getType
  cases truthy row.eventId <;> cases truthy row.pageviewId <;> cases truthy row.sessionId <;>
    simp <;> decide

theorem merged_pairwise (d : Snapshot) :
    (merged d).Pairwise (fun a b => b.createdAt ≤ a.createdAt) :=
  jsSort_pairwise firstByCreatedAtDesc (fun r => r.createdAt) firstByCreatedAtDesc_le_zero _

theorem logs_sublist_merged (d : Snapshot) (filter : JSVal) :
    (logs (some d) filter).Sublist (merged d) := by
  unfold logs
  split_ifs
  · exact List.filter_sublist _
  · exact List.Sublist.refl _

theorem logs_pairwise (data : Option Snapshot) (filter : JSVal) :
    (logs data filter).Pairwise (fun a b => b.createdAt ≤ a.createdAt) := by
  cases data with
  | none => exact List.Pairwise.nil
  | some d => exact (merged_pairwise d).sublist (logs_sublist_merged d filter)

/-! ## The filter selection `All` -/

/-- C1: with the selection `TYPE_ALL` the memo does not return the merged
sequence. `TYPE_ALL` is a non-empty string, so `if (filter)` takes the
filtering branch and no record has type `TYPE_ALL`: the log is empty for every
snapshot, and on the scenario it differs from the three merged records. -/
theorem logs_TYPE_ALL_is_empty :
    truthy TYPE_ALL = true ∧
    (∀ d : Snapshot, logs (some d) TYPE_ALL = []) ∧
    (merged scenario).length = 3 ∧
    logs (some scenario) TYPE_ALL ≠ merged scenario := by
  have hall : ∀ d : Snapshot, logs (some d) TYPE_ALL = [] := by
    intro d
    have ht : truthy TYPE_ALL = true := by decide
    simp only [logs, ht, if_true]
    rw [List.filter_eq_nil_iff]
    intro r _
    simpa using getType_ne_TYPE_ALL r
  exact ⟨by decide, hall, by decide, by decide⟩

/-! ## Classification precedence -/

/-- C2, counterexample: a record whose `eventId` is the number `0` carries
the field, yet it is classified Unknown, and with a `pageviewId` beside it the
record is classified as a pageview, not as an event. -/
theorem getType_ignores_zero_eventId :
    zeroEventId.eventId = .num 0 ∧ zeroEventId.eventId ≠ .undefined ∧
    getType zeroEventId = .null ∧
    zeroEventIdWithPageview.eventId ≠ .undefined ∧
    getType zeroEventIdWithPageview = TYPE_PAGEVIEW ∧
    getType zeroEventIdWithPageview ≠ TYPE_EVENT := by
  decide

/-- C2, amended: with presence read as JavaScript truthiness, `getType`
follows the precedence `eventId`, `pageviewId`, `sessionId`, and it is `null`
exactly when none of the three fields is truthy. The same holds when an
identifier counts as present if it is a non-zero number or a non-empty string. -/
theorem getType_precedence_by_truthiness (row : Record) :
    (truthy row.eventId = true → getType row = TYPE_EVENT) ∧
    (truthy row.eventId = false → truthy row.pageviewId = true →
      getType row = TYPE_PAGEVIEW) ∧
    (truthy row.eventId = false → truthy row.pageviewId = false →
      truthy row.sessionId = true → getType row = TYPE_SESSION) ∧
    (getType row = .null ↔
      truthy row.eventId = false ∧ truthy row.pageviewId = false ∧
        truthy row.sessionId = false) ∧
    (∀ v : JSVal, truthy v = true ↔
      v = .bool true ∨ (∃ n : Int, n ≠ 0 ∧ v = .num n) ∨ (∃ s : String, s ≠ "" ∧ v = .str s)) := by
  refine ⟨?_, ?_, ?_, getType_eq_null_iff row, ?_⟩
  · intro h; simp [getType, h]
  · intro h1 h2; simp [getType, h1, h2]
  · intro h1 h2 h3; simp [getType, h1, h2, h3]
  · intro v
    cases v <;> simp [truthy]

/-! ## Sort order -/

/-- C3: the merged sequence is non-increasing in `createdAt` on every adjacent
pair (and on every pair), and so is the log returned for every filter
selection, with or without data. -/
theorem logs_createdAt_non_increasing (d : Snapshot) (data : Option Snapshot) (filter : JSVal) :
    (merged d).Chain' (fun a b => a.createdAt ≥ b.createdAt) ∧
    (merged d).Pairwise (fun a b => a.createdAt ≥ b.createdAt) ∧
    (logs data filter).Chain' (fun a b => a.createdAt ≥ b.createdAt) ∧
    (logs data filter).Pairwise (fun a b => a.createdAt ≥ b.createdAt) :=
  ⟨(merged_pairwise d).chain', merged_pairwise d,
    (logs_pairwise data filter).chain', logs_pairwise data filter⟩

/-! ## Length preservation -/

/-- C4: the merged sequence is a permutation of
`pageviews ++ sessions ++ events`; its length is the sum of the three lengths
and every record occurs in it as often as in the concatenation. -/
theorem merged_perm_concatenation (d : Snapshot) :
    (merged d).Perm (d.pageviews ++ d.sessions ++ d.events) ∧
    (merged d).length = d.pageviews.length + d.sessions.length + d.events.length ∧
    (∀ r : Record, (merged d).count r = (d.pageviews ++ d.sessions ++ d.events).count r) := by
  have hp : (merged d).Perm (d.pageviews ++ d.sessions ++ d.events) :=
    jsSort_perm firstByCreatedAtDesc _
  refine ⟨hp, ?_, fun r => hp.count_eq r⟩
  rw [hp.length_eq, List.length_append, List.length_append]

/-! ## Filter correctness -/

/-- C5: for a selection `t` among pageview, session and event, the log is the
sublist of the merged sequence made of the records of type `t`, in the merged
order: each returned record has type `t`, each merged record of type `t` is
returned, and no record of unknown type is returned. -/
theorem logs_is_type_subsequence (d : Snapshot) (t : JSVal)
    (ht : t = TYPE_PAGEVIEW ∨ t = TYPE_SESSION ∨ t = TYPE_EVENT) :
    logs (some d) t = (merged d).filter (fun r => decide (getType r = t)) ∧
    (∀ r ∈ logs (some d) t, getType r = t) ∧
    (∀ r ∈ merged d, getType r = t → r ∈ logs (some d) t) ∧
    (logs (some d) t).Sublist (merged d) ∧
    (∀ r ∈ logs (some d) t, getType r ≠ .null) := by
  have htruthy : truthy t = true := by
    rcases ht with rfl | rfl | rfl <;> decide
  have hnull : t ≠ .null := by
    rcases ht with rfl | rfl | rfl <;> decide
  have hlogs : logs (some d) t = (merged d).filter (fun r => decide (getType r = t)) := by
    simp [logs, htruthy]
  refine ⟨hlogs, ?_, ?_, logs_sublist_merged d t, ?_⟩
  · intro r hr
    rw [hlogs] at hr
    simpa using (List.mem_filter.1 hr).2
  · intro r hr hrt
    rw [hlogs]
    exact List.mem_filter.2 ⟨hr, by simpa using hrt⟩
  · intro r hr
    rw [hlogs] at hr
    have : getType r = t := by simpa using (List.mem_filter.1 hr).2
    rw [this]
    exact hnull

/-- C5, witness: in the scenario the merged order is event (150), pageview
(100), session (50), and the selection session leaves the session record only. -/
theorem logs_is_type_subsequence_scenario :
    (TYPE_SESSION = TYPE_PAGEVIEW ∨ TYPE_SESSION = TYPE_SESSION ∨ TYPE_SESSION = TYPE_EVENT) ∧
    merged scenario = scenario.events ++ scenario.pageviews ++ scenario.sessions ∧
    logs (some scenario) TYPE_SESSION = scenario.sessions ∧
    (logs (some scenario) TYPE_SESSION =
        (merged scenario).filter (fun r => decide (getType r = TYPE_SESSION)) ∧
      (∀ r ∈ logs (some scenario) TYPE_SESSION, getType r = TYPE_SESSION) ∧
      (∀ r ∈ merged scenario, getType r = TYPE_SESSION → r ∈ logs (some scenario) TYPE_SESSION) ∧
      (logs (some scenario) TYPE_SESSION).Sublist (merged scenario) ∧
      (∀ r ∈ logs (some scenario) TYPE_SESSION, getType r ≠ .null)) :=
  ⟨Or.inr (Or.inl rfl), by decide, by decide,
    logs_is_type_subsequence scenario TYPE_SESSION (Or.inr (Or.inl rfl))⟩

/-! ## Stability -/

/-- C6: the merge is stable. For every timestamp the records carrying it
appear in the merged sequence in the order of `pageviews ++ sessions ++ events`;
two records with equal timestamps that follow each other in the concatenation
follow each other in the merged sequence; the merged sequence is the only
non-increasing arrangement with this property; and equal snapshots give equal
merged sequences. -/
theorem merged_is_stable (d : Snapshot) :
    (∀ k : Int, (merged d).filter (fun r => decide (r.createdAt = k)) =
      (d.pageviews ++ d.sessions ++ d.events).filter (fun r => decide (r.createdAt = k))) ∧
    (∀ a b : Record, a.createdAt = b.createdAt →
      [a, b].Sublist (d.pageviews ++ d.sessions ++ d.events) → [a, b].Sublist (merged d)) ∧
    (∀ l : List Record, l.Pairwise (fun a b => b.createdAt ≤ a.createdAt) →
      (∀ k : Int, l.filter (fun r => decide (r.createdAt = k)) =
        (d.pageviews ++ d.sessions ++ d.events).filter (fun r => decide (r.createdAt = k))) →
      l = merged d) ∧
    (∀ d' : Snapshot, d'.pageviews = d.pageviews → d'.sessions = d.sessions →
      d'.events = d.events → merged d' = merged d) := by
  have hst : ∀ k : Int, (merged d).filter (fun r => decide (r.createdAt = k)) =
      (d.pageviews ++ d.sessions ++ d.events).filter (fun r => decide (r.createdAt = k)) :=
    fun k => jsSort_filter_key firstByCreatedAtDesc (fun r => r.createdAt)
      firstByCreatedAtDesc_le_zero k _
  refine ⟨hst, ?_, ?_, ?_⟩
  · intro a b hab hsub
    have h1 := hsub.filter (fun r => decide (r.createdAt = b.createdAt))
    rw [← hst] at h1
    have h2 : [a, b].filter (fun r => decide (r.createdAt = b.createdAt)) = [a, b] := by
      simp [List.filter_cons, hab]
    rw [h2] at h1
    exact h1.trans (List.filter_sublist _)
  · intro l hl hk
    apply sorted_stable_unique (fun r : Record => r.createdAt) l (merged d) hl (merged_pairwise d)
    intro k
    rw [hk, hst]
  · intro d' h1 h2 h3
    cases d; cases d'
    simp_all

/-! ## Colour -/

/-- C7, counterexample: for a row whose `sessionId` is `constructor` no session
is stored, yet the seed is the inherited member of `Object.prototype`, not a
string made from the `sessionId`; and a session stored under `__proto__` is
not found by a row with that `sessionId`, whose seed is the inherited member. -/
theorem getColor_seed_inherited_member :
    latestSessionUuid scenario.sessions constructorRow.sessionId = .undefined ∧
    getColor id (fun _ => false) (some scenario) constructorRow = .inherited "constructor" ∧
    getColor id (fun _ => false) (some scenario) constructorRow ≠
      .value (.str (toStr constructorRow.sessionId ++ "\x7d")) ∧
    latestSessionUuid protoSnapshot.sessions protoSession.sessionId = .str "u1" ∧
    getColor id (fun _ => false) (some protoSnapshot) protoSession = .inherited "__proto__" ∧
    getColor id (fun _ => false) (some protoSnapshot) protoSession ≠ .value (.str "u1") := by
  decide

/-- C7, amended: for a row whose `sessionId`, as a property key, is not the
name of a member of `Object.prototype`, `getColor row` is `stringToColor` of a
seed that is the `sessionUuid` of the latest session stored under that key
when that value is truthy (for a string: non-empty), and otherwise the string
made of `row.sessionId` followed by a closing brace: the string itself for a
string, the decimal digits for a natural number below `1e21`. The colour
depends on the row through `sessionId` only, and on the snapshot through the
stored `sessionUuid` only. -/
theorem getColor_seed {γ : Type} (stringToColor : Property → γ) (arrayMember : String → Bool)
    (d : Snapshot) (row : Record)
    (h : objectPrototypeMembers.contains (toStr row.sessionId) = false) :
    getColor stringToColor arrayMember (some d) row =
      stringToColor (.value
        (if truthy (latestSessionUuid d.sessions row.sessionId) then
          latestSessionUuid d.sessions row.sessionId
        else .str (toStr row.sessionId ++ "\x7d"))) ∧
    (∀ s : String, latestSessionUuid d.sessions row.sessionId = .str s → s ≠ "" →
      getColor stringToColor arrayMember (some d) row = stringToColor (.value (.str s))) ∧
    (latestSessionUuid d.sessions row.sessionId = .undefined ∨
        latestSessionUuid d.sessions row.sessionId = .str "" →
      getColor stringToColor arrayMember (some d) row =
        stringToColor (.value (.str (toStr row.sessionId ++ "\x7d")))) ∧
    (∀ k : String, row.sessionId = .str k →
      latestSessionUuid d.sessions row.sessionId = .undefined →
      getColor stringToColor arrayMember (some d) row =
        stringToColor (.value (.str (k ++ "\x7d")))) ∧
    (∀ n : Nat, row.sessionId = .num n → n < 10 ^ 21 →
      latestSessionUuid d.sessions row.sessionId = .undefined →
      getColor stringToColor arrayMember (some d) row =
        stringToColor (.value (.str (Nat.repr n ++ "\x7d")))) ∧
    (∀ row' : Record, row'.sessionId = row.sessionId →
      getColor stringToColor arrayMember (some d) row' =
        getColor stringToColor arrayMember (some d) row) ∧
    (∀ d' : Snapshot,
      latestSessionUuid d'.sessions row.sessionId = latestSessionUuid d.sessions row.sessionId →
      getColor stringToColor arrayMember (some d') row =
        getColor stringToColor arrayMember (some d) row) := by
  have hseed : ∀ e : Snapshot, colorSeed arrayMember (some e) row =
      .value (if truthy (latestSessionUuid e.sessions row.sessionId) then
          latestSessionUuid e.sessions row.sessionId
        else .str (toStr row.sessionId ++ "\x7d")) := by
    intro e
    simp only [colorSeed, uuids, readTable, getProp_uuids _ _ h, propTruthy]
    split_ifs <;> rfl
  have hfall : latestSessionUuid d.sessions row.sessionId = .undefined →
      getColor stringToColor arrayMember (some d) row =
        stringToColor (.value (.str (toStr row.sessionId ++ "\x7d"))) := by
    intro hl
    simp [getColor, hseed, hl, truthy]
  refine ⟨?_, ?_, ?_, ?_, ?_, ?_, ?_⟩
  · simp only [getColor, hseed]
  · intro s hs hne
    simp [getColor, hseed, hs, truthy, hne]
  · intro hl
    rcases hl with hl | hl <;> simp [getColor, hseed, hl, truthy]
  · intro k hk hl
    rw [hfall hl, hk]
    simp [toStr]
  · intro n hn hlt hl
    have h0 : ¬ ((n : Int) < 0) := by omega
    have hlt' : n < 1000000000000000000000 := by
      have e : (10 : Nat) ^ 21 = 1000000000000000000000 := by norm_num
      rw [e] at hlt
      exact hlt
    rw [hfall hl, hn]
    simp [toStr, numberToString, h0, hlt']
  · intro row' hr
    simp only [getColor, colorSeed, hr]
  · intro d' hd
    simp only [getColor, hseed, hd]

/-- C7, witness: in the scenario the session row has the key `9`, which
`Object.prototype` does not provide, and its seed is the stored `u9`; a row
with the string `9` finds the same entry, a row with the unknown id `7` gets
the seed `7` followed by a brace, a later session overwrites an earlier one
with the same key, and a number from `1e21` on is keyed in exponent form. -/
theorem getColor_seed_scenario :
    objectPrototypeMembers.contains (toStr sessionNine.sessionId) = false ∧
    getColor id (fun _ => false) (some scenario) sessionNine = .value (.str "u9") ∧
    toStr (.num 9) = "9" ∧
    getColor id (fun _ => false) (some scenario) { sessionId := .str "9", createdAt := 0 } =
      .value (.str "u9") ∧
    getColor id (fun _ => false) (some scenario) { sessionId := .num 7, createdAt := 0 } =
      .value (.str "7\x7d") ∧
    getColor id (fun _ => false) (some threeSessions) { sessionId := .num 1, createdAt := 0 } =
      .value (.str "c") ∧
    getColor id (fun _ => false) (some threeSessions) { sessionId := .num 2, createdAt := 0 } =
      .value (.str "b") ∧
    toStr (.num (-12)) = "-12" ∧
    toStr (.num (10 ^ 21)) = "1e+21" ∧
    toStr (.num (2 ^ 70)) = "1.1805916207174113e+21" :=
  ⟨by decide,
    (getColor_seed id (fun _ => false) scenario sessionNine (by decide)).2.1 "u9"
      (by decide) (by decide),
    by decide, by decide, by decide, by decide, by decide, by decide, by decide, by decide⟩

/-! ## Detail -/

/-- C8, counterexample: an event record without a name but with a session is
classified as an event and gets the visitor description; a record with a name
and no identifier is classified Unknown and gets the name as detail; a
pageview record with a name gets the name, not the link. -/
theorem getDetail_disagrees_with_getType :
    getType unnamedEvent = TYPE_EVENT ∧
    getDetail echoCollaborators (.str "example.com") unnamedEvent =
      some (.visitor (.str "Unknown") .undefined .undefined .undefined) ∧
    getDetail echoCollaborators (.str "example.com") unnamedEvent ≠
      some (.eventName unnamedEvent.eventName) ∧
    getType namedOnly = .null ∧
    getDetail echoCollaborators (.str "example.com") namedOnly =
      some (.eventName (.str "signup")) ∧
    getType namedPageview = TYPE_PAGEVIEW ∧
    getDetail echoCollaborators (.str "example.com") namedPageview =
      some (.eventName (.str "signup")) := by
  decide

/-- C8, amended: for a record whose `eventName` is truthy exactly when its
`eventId` is, the detail agrees with the classification: an event yields its
name, a pageview the decoded url linked to `//websiteDomain` followed by the
url, a session the visitor description, and an unknown record no detail. -/
theorem getDetail_agrees_with_getType (c : Collaborators) (websiteDomain : JSVal) (row : Record)
    (h : truthy row.eventName = truthy row.eventId) :
    (getType row = TYPE_EVENT → getDetail c websiteDomain row = some (.eventName row.eventName)) ∧
    (getType row = TYPE_PAGEVIEW →
      getDetail c websiteDomain row =
        some (.pageLink ("//" ++ toStr websiteDomain ++ toStr row.url) (c.safeDecodeURI row.url))) ∧
    (getType row = TYPE_SESSION →
      getDetail c websiteDomain row =
        some (.visitor (jsOr (c.countryNames row.country) c.unknownLabel) (c.browsers row.browser)
          row.os (c.deviceMessage row.device))) ∧
    (getType row = .null → getDetail c websiteDomain row = none) := by
  have e1 : TYPE_EVENT ≠ TYPE_PAGEVIEW := by decide
  have e2 : TYPE_EVENT ≠ TYPE_SESSION := by decide
  have e3 : TYPE_EVENT ≠ JSVal.null := by decide
  have e4 : TYPE_PAGEVIEW ≠ TYPE_SESSION := by decide
  have e5 : TYPE_PAGEVIEW ≠ JSVal.null := by decide
  have e6 : TYPE_SESSION ≠ JSVal.null := by decide
  unfold getType getDetail
  rw [h]
  cases truthy row.eventId <;> cases truthy row.pageviewId <;> cases truthy row.sessionId <;>
    simp [e1, e2, e3, e4, e5, e6, e1.symm, e2.symm, e3.symm, e4.symm, e5.symm, e6.symm]

/-- C8, witness: the event record of the scenario has a name and an `eventId`,
it is classified as an event and its detail is its name. -/
theorem getDetail_agrees_with_getType_scenario :
    truthy signupEvent.eventName = truthy signupEvent.eventId ∧
    getType signupEvent = TYPE_EVENT ∧
    getDetail echoCollaborators (.str "example.com") signupEvent =
      some (.eventName (.str "signup")) :=
  ⟨by decide, by decide,
    (getDetail_agrees_with_getType echoCollaborators (.str "example.com") signupEvent
      (by decide)).1 (by decide)⟩

/-! ## Empty state -/

/-- C9: without data, and with three empty collections, the log is empty for
every filter selection. For every log the body holds exactly one element:
`NoData` when the log is empty, the list with `itemCount` the length of the log
(height 400, item size 40) otherwise; an empty log therefore calls `Row` zero
times, whatever the list component does. -/
theorem empty_log_renders_NoData (window : Nat → Nat → Nat → Nat) (filter : JSVal)
    (l : List Record) :
    logs none filter = [] ∧
    logs (some { pageviews := [], sessions := [], events := [] }) filter = [] ∧
    (l.length = 0 → renderBody l = [BodyElem.noData]) ∧
    (0 < l.length → renderBody l = [BodyElem.fixedSizeList 400 l.length 40]) ∧
    (renderBody l).length = 1 ∧
    rowCalls window (renderBody (logs none filter)) = 0 ∧
    rowCalls window
      (renderBody (logs (some { pageviews := [], sessions := [], events := [] }) filter)) = 0 ∧
    (l.length = 0 → rowCalls window (renderBody l) = 0) := by
  have h0 : logs none filter = [] := rfl
  have h1 : logs (some { pageviews := [], sessions := [], events := [] }) filter = [] := by
    unfold logs
    split_ifs <;> rfl
  have hz : l.length = 0 → renderBody l = [BodyElem.noData] := by
    intro h
    simp [renderBody, h]
  have hp : 0 < l.length → renderBody l = [BodyElem.fixedSizeList 400 l.length 40] := by
    intro h
    have h' : l.length ≠ 0 := by omega
    simp [renderBody, h, h']
  refine ⟨h0, h1, hz, hp, ?_, ?_, ?_, ?_⟩
  · rcases Nat.eq_zero_or_pos l.length with h | h
    · rw [hz h]; rfl
    · rw [hp h]; rfl
  · rw [h0]; rfl
  · rw [h1]; rfl
  · intro h
    rw [hz h]; rfl

end RealtimeLog
